import Mathlib

/-!
A shallow embedding of the drug-name resolution pipeline of
`src/generate_data.py` (repository Mahmoud2592004/demo), together with
theorems establishing or refuting the stated properties C1 to C10 of
that pipeline.

Conventions of the embedding:

* Python strings are Lean `String`s; character-level work happens on
  `String.data : List Char`.
* Python floats that hold fuzzy-match scores are modelled as rationals
  (`ℚ`); every score the program manipulates is a finite decimal, so no
  rounding behaviour is lost.
* Library calls whose internals are irrelevant to the claims
  (`rapidfuzz.fuzz.token_sort_ratio`, `json.loads`, `ast.literal_eval`)
  are taken as explicit function parameters, so each theorem quantifies
  over their behaviour.
* Python character classes are modelled on the character repertoire this
  program works with (ASCII, the Arabic block U+0600 to U+06FF, and
  U+0130, the one Unicode character whose lower-casing is
  multi-character); characters outside that repertoire are given the
  identity behaviour.  Every such modelling choice is recorded in the
  doc comment of the definition that makes it.
-/

/-- Python regex `\s` and `str.strip` whitespace, restricted to the ASCII
whitespace characters (the program never feeds non-ASCII whitespace to
these functions). -/
def pyIsSpace (c : Char) : Bool :=
  decide (c = ' ' ∨ c = '\t' ∨ c = '\n' ∨ c = '\r' ∨ c = '\x0b' ∨ c = '\x0c')

/-- Python regex `\w` (a word character: anything `str.isalnum` accepts,
plus the underscore), modelled on the repertoire of this development:
ASCII alphanumerics, the underscore, U+0130 (a letter), and the Arabic
letters and digits of the U+0600 block.  Combining marks such as U+0307
and the Arabic harakat are not word characters, exactly as in Python. -/
def isWordChar (c : Char) : Bool :=
  decide ((97 ≤ c.toNat ∧ c.toNat ≤ 122) ∨ (65 ≤ c.toNat ∧ c.toNat ≤ 90) ∨
    (48 ≤ c.toNat ∧ c.toNat ≤ 57) ∨ c = '_' ∨ c = 'İ' ∨
    (0x621 ≤ c.toNat ∧ c.toNat ≤ 0x64A) ∨ (0x660 ≤ c.toNat ∧ c.toNat ≤ 0x669) ∨
    (0x66E ≤ c.toNat ∧ c.toNat ≤ 0x6D3) ∨ (0x6F0 ≤ c.toNat ∧ c.toNat ≤ 0x6F9))

/-- The character class kept by `clean_text`'s first substitution
`re.sub(r'[^\w\s؀-ۿ]', '', text)`: word characters, whitespace,
and the whole Arabic block U+0600 to U+06FF. -/
def keepChar (c : Char) : Bool :=
  isWordChar c || pyIsSpace c || decide (0x600 ≤ c.toNat ∧ c.toNat ≤ 0x6FF)

/-- The 26 ASCII case pairs used to model the single-character part of
`str.lower`. -/
def asciiPairs : List (Char × Char) :=
  [('A','a'), ('B','b'), ('C','c'), ('D','d'), ('E','e'), ('F','f'), ('G','g'),
   ('H','h'), ('I','i'), ('J','j'), ('K','k'), ('L','l'), ('M','m'), ('N','n'),
   ('O','o'), ('P','p'), ('Q','q'), ('R','r'), ('S','s'), ('T','t'), ('U','u'),
   ('V','v'), ('W','w'), ('X','x'), ('Y','y'), ('Z','z')]

/-- Single-character lower-casing: ASCII upper-case letters map to their
lower-case pair, every other character is fixed.  (Arabic has no case, so
this is faithful for the program's repertoire; non-ASCII cased letters
outside it are modelled as fixed.) -/
def asciiLower (c : Char) : Char :=
  match asciiPairs.find? (fun p => p.1 == c) with
  | some p => p.2
  | none => c

/-- Python `str.lower` on one character.  U+0130 is the single Unicode
character whose lower-case image has more than one character: it maps to
"i" followed by the combining dot above U+0307.  All other characters
use the single-character mapping. -/
def pyLowerChar (c : Char) : List Char :=
  if c = 'İ' then ['i', '\u0307'] else [asciiLower c]

/-- Python `str.lower` on a character list. -/
def lowerStr : List Char → List Char
  | [] => []
  | c :: rest => pyLowerChar c ++ lowerStr rest

/-- Python `str.lower` on a string. -/
def pyLower (s : String) : String := ⟨lowerStr s.data⟩

/-- `listStartsWith needle hay` is true when `needle` is a prefix of
`hay` (character-wise equality). -/
def listStartsWith : List Char → List Char → Bool
  | [], _ => true
  | _ :: _, [] => false
  | a :: as, b :: bs => a == b && listStartsWith as bs

/-- Python's substring containment operator on character lists:
`listContains needle hay` is true when `needle` occurs contiguously in
`hay` (the empty needle is contained in everything, as in Python). -/
def listContains : List Char → List Char → Bool
  | needle, [] => needle.isEmpty
  | needle, hay@(_ :: rest) => listStartsWith needle hay || listContains needle rest

/-- Python's `needle in hay` on strings. -/
def pyIn (needle hay : String) : Bool := listContains needle.data hay.data

/-- Unicode NFC normalization (`unicodedata.normalize('NFC', text)`),
restricted to the character repertoire of this development.  The one
canonical composition that applies there is U+0049 immediately followed
by the combining dot above U+0307, which composes to U+0130; every
other sequence of the repertoire is NFC-invariant (NFC fixes U+0130
itself, fixes "i" followed by U+0307 — the pair has no precomposed
form — and fixes the Arabic base letters, so it is modelled as the
identity on them). -/
def nfc : List Char → List Char
  | [] => []
  | [c] => [c]
  | c :: d :: rest =>
    if c = 'I' ∧ d = '\u0307' then 'İ' :: nfc rest
    else c :: nfc (d :: rest)

/-- One pass of `re.sub(r'\s+', ' ', text)`: each maximal run of
whitespace is replaced by a single space.  The flag records whether the
previous character was part of a whitespace run. -/
def collapseGo (prevSpace : Bool) : List Char → List Char
  | [] => []
  | c :: rest =>
    if pyIsSpace c then
      if prevSpace then collapseGo true rest
      else ' ' :: collapseGo true rest
    else c :: collapseGo false rest

/-- `re.sub(r'\s+', ' ', text)`. -/
def collapseWS (l : List Char) : List Char := collapseGo false l

/-- Python `str.strip()`: drop leading and trailing whitespace. -/
def stripWS (l : List Char) : List Char :=
  ((l.dropWhile pyIsSpace).reverse.dropWhile pyIsSpace).reverse

/-- `MedicineMatcher.clean_text` (src/generate_data.py lines 88-97) on a
character list: NFC normalization, then
`re.sub(r'[^\w\s؀-ۿ]', '', text)`, then
`re.sub(r'\s+', ' ', text).strip()`, then `.lower()`.  (The guard for
non-string input returning "" falls away because the Lean input type is
`String`.) -/
def cleanChars (l : List Char) : List Char :=
  lowerStr (stripWS (collapseWS ((nfc l).filter keepChar)))

/-- `MedicineMatcher.clean_text` on strings. -/
def clean_text (s : String) : String := ⟨cleanChars s.data⟩


/-! ## The fuzzy matcher (`MedicineMatcher.get_top_matches`) -/

/-- A drug candidate as the program builds it: a dictionary with a
"name" and a "score" key.  Scores are rationals in place of Python
floats. -/
structure Drug where
  name : String
  score : ℚ
deriving DecidableEq, Repr

/-- The module-level fuzzy matching threshold (src/generate_data.py
line 22). -/
def THRESHOLD : ℚ := 50

/-- Insertion step of a stable descending-by-score sort: an element is
placed before the first element whose score is less than or equal to its
own, so earlier elements win ties, as in Python's stable `sort`. -/
def insertDesc (x : String × ℚ) : List (String × ℚ) → List (String × ℚ)
  | [] => [x]
  | y :: ys => if y.2 ≤ x.2 then x :: y :: ys else y :: insertDesc x ys

/-- Stable sort by descending score, modelling both
`rapidfuzz.process.extract`'s score-descending output order and the
Python `filtered.sort(key=lambda x: x[1], reverse=True)`. -/
def sortDesc : List (String × ℚ) → List (String × ℚ)
  | [] => []
  | x :: xs => insertDesc x (sortDesc xs)

/-- `rapidfuzz.process.extract(query, choices, scorer=..., limit=...)`:
score every choice with the scorer, order by descending score and keep
the first `limit`.  The scorer itself (`fuzz.token_sort_ratio`) is a
parameter; ties are modelled as resolved in choice order. -/
def processExtract (scorer : String → String → ℚ) (query : String)
    (choices : List String) (limit : Nat) : List (String × ℚ) :=
  (sortDesc (choices.map (fun c => (c, scorer query c)))).take limit

/-- `MedicineMatcher.get_top_matches` (src/generate_data.py lines
67-86).  `drug_list` plays the role of `self.drug_list`; `scorer` is
`fuzz.token_sort_ratio`.  First the exact substring shortcut: every
catalog entry whose lower-cased text contains the lower-cased query is
returned with score 100.0, truncated to `topN`.  Only if there is no
such entry does the approximate path run: `process.extract` with limit
`topN * 5`, threshold filter at 50, descending sort, truncation to
`topN`. -/
def get_top_matches (drug_list : List String) (scorer : String → String → ℚ)
    (query : String) (topN : Nat) : List Drug :=
  let query_lower := pyLower query
  let exact_matches := drug_list.filter (fun drug => pyIn query_lower (pyLower drug))
  if exact_matches.isEmpty then
    let results := processExtract scorer query drug_list (topN * 5)
    let filtered := results.filter (fun res => decide (THRESHOLD ≤ res.2))
    if filtered.isEmpty then []
    else ((sortDesc filtered).take topN).map (fun res => Drug.mk res.1 res.2)
  else (exact_matches.take topN).map (fun m => Drug.mk m 100)


/-! ## The confirmed-drug extractor (`extract_drugs_from_confirmed`) -/

/-- The dynamic values the confirmedDrugs cell can hold once read from
the spreadsheet or produced by a parser: the NA scalar (None / NaN), a
string, an already-parsed list, a dictionary (with string keys), or any
other scalar. -/
inductive PyVal where
  | pnull
  | pstr (s : String)
  | plist (items : List PyVal)
  | pdict (entries : List (String × PyVal))
  | pother

/-- `pd.isna` on a scalar: true exactly for the NA scalar. -/
def isnaScalar : PyVal → Bool
  | .pnull => true
  | _ => false

/-- The evaluation of `if pd.isna(confirmed_drugs) or confirmed_drugs in
["", "null", "None"]` (src/generate_data.py line 204), which runs
OUTSIDE the try block.  For a scalar `pd.isna` gives a Bool.  For a
list, pandas maps `pd.isna` over the elements and returns a numpy
array, whose conversion to Bool raises ValueError unless the array has
exactly one element; this models the one-dimensional case (the program
never builds nested lists here, so multi-dimensional arrays are not
distinguished).  An `.error` value is an uncaught Python exception. -/
def isnaGuard : PyVal → Except String Bool
  | .pnull => .ok true
  | .pstr s => .ok (decide (s = "" ∨ s = "null" ∨ s = "None"))
  | .plist [] => .ok false
  | .plist [x] => .ok (isnaScalar x)
  | .plist (_ :: _ :: _) =>
    .error "ValueError: The truth value of an array with more than one element is ambiguous"
  | .pdict _ => .ok false
  | .pother => .ok false

/-- A confirmed drug entry as built by the list comprehension at
src/generate_data.py lines 220-221: the raw value found under the
"name" key (which need not be a string) and the score forced to
100.0. -/
structure ConfDrug where
  name : PyVal
  score : ℚ

/-- Dictionary key lookup modelling `item.get('name', '')`: the first
entry for the key, defaulting to the empty string. -/
def dictGet (key : String) (entries : List (String × PyVal)) : PyVal :=
  match entries.find? (fun e => e.1 == key) with
  | some e => e.2
  | none => .pstr ""

/-- Whether `'name' in item` holds for a dictionary. -/
def dictHasKey (key : String) (entries : List (String × PyVal)) : Bool :=
  (entries.find? (fun e => e.1 == key)).isSome

/-- The comprehension `[{"name": item.get('name', ''), "score": 100.0}
for item in drugs_data if 'name' in item]` (src/generate_data.py lines
220-221).  Non-dictionary items make the membership test or the
attribute access raise: for a string item, `'name' in item` is a
substring test and a true result leads to `item.get` raising
AttributeError; for any other item `'name' in item` itself raises
TypeError.  Those exceptions are caught by the surrounding
`except Exception` handler. -/
def confirmedItems : List PyVal → Except String (List ConfDrug)
  | [] => .ok []
  | .pdict d :: rest =>
    if dictHasKey "name" d then
      (confirmedItems rest).map (fun ds => ConfDrug.mk (dictGet "name" d) 100 :: ds)
    else confirmedItems rest
  | .pstr s :: rest =>
    if pyIn "name" s then .error "AttributeError: str object has no attribute get"
    else confirmedItems rest
  | .plist items :: rest =>
    if items.any (fun it => match it with | .pstr s => s == "name" | _ => false) then
      .error "AttributeError: list object has no attribute get"
    else confirmedItems rest
  | _ :: _ => .error "TypeError: argument of type is not iterable"

/-- `extract_drugs_from_confirmed` (src/generate_data.py lines
202-226).  `jsonLoads` models `json.loads` (`none` is a JSONDecodeError),
`litEval` models `ast.literal_eval` (`none` is any exception of the
bare except).  The returned `.error` is the one exception that can
escape the function: the ValueError raised by line 204 before the try
block starts; every failure inside the try block degrades to `.ok []`
(the `except Exception` handler at line 222) or falls through to the
final `return []`. -/
def extract_drugs_from_confirmed (jsonLoads litEval : String → Option PyVal)
    (confirmed_drugs : PyVal) : Except String (List ConfDrug) :=
  match isnaGuard confirmed_drugs with
  | .error e => .error e
  | .ok true => .ok []
  | .ok false =>
    let drugs_data : PyVal :=
      match confirmed_drugs with
      | .pstr s =>
        match jsonLoads s with
        | some d => d
        | none =>
          match litEval s with
          | some d => d
          | none => .pstr s
      | v => v
    match drugs_data with
    | .plist items =>
      match confirmedItems items with
      | .ok ds => .ok ds
      | .error _ => .ok []
    | _ => .ok []

/-! ## The doctor-name extractor (`extract_doctor_name`)

The four regular expressions at src/generate_data.py lines 235-243 all
have the shape `(alternation of literal markers)\s*([^\n]+...)` with an
optional terminator lookahead, so `re.search` is implemented directly
for that shape: scan the match start left to right; at each position
try the marker alternats in order with full backtracking (an
alternative whose tail fails falls through to the next, and `dr\.?` is
the two markers "dr." then "dr"); after a marker, the greedy `\s*`
backtracks from the longest whitespace run down; the group `([^\n]+?)`
is lazy (shortest nonempty run of non-newline characters after which
the lookahead `(?=\n|$|\.|,)` holds, where `$` with no MULTILINE at the
very end of the input is subsumed by the alternats) and `([^\n]+)` is
greedy (the maximal nonempty run). -/

/-- Case folding for `re.IGNORECASE` marker matching; the markers are
ASCII, so ASCII folding is faithful. -/
def foldCI (ci : Bool) (c : Char) : Char := if ci then asciiLower c else c

/-- If the marker (case-folded when `ci` is set) begins the suffix `s`,
return what follows it. -/
def dropMarker (ci : Bool) : List Char → List Char → Option (List Char)
  | [], s => some s
  | _ :: _, [] => none
  | m :: ms, c :: cs =>
    if foldCI ci m == foldCI ci c then dropMarker ci ms cs else none

/-- The lookahead `(?=\n|$|\.|,)`: satisfied at end of input or before a
newline, period or comma. -/
def lookaheadOK : List Char → Bool
  | [] => true
  | c :: _ => c == '\n' || c == '.' || c == ','

/-- The lazy group `([^\n]+?)(?=\n|$|\.|,)`: accumulate the shortest
nonempty run of non-newline characters after which the lookahead
holds. -/
def lazyGroupGo (acc : List Char) : List Char → Option (List Char)
  | [] => none
  | c :: rest =>
    if c == '\n' then none
    else if lookaheadOK rest then some (acc ++ [c])
    else lazyGroupGo (acc ++ [c]) rest

/-- The greedy group `([^\n]+)`: the maximal nonempty run of non-newline
characters (nothing follows it in the pattern, so no backtracking). -/
def greedyGroup (r : List Char) : Option (List Char) :=
  let run := r.takeWhile (fun c => !(c == '\n'))
  if run.isEmpty then none else some run

/-- The group part of a pattern, lazy or greedy. -/
def groupMatch (lzy : Bool) (r : List Char) : Option (List Char) :=
  if lzy then lazyGroupGo [] r else greedyGroup r

/-- Backtracking over the greedy `\s*`: try consuming `k` whitespace
characters, largest `k` first. -/
def tryTail (lzy : Bool) (r : List Char) : Nat → Option (List Char)
  | 0 => groupMatch lzy r
  | k + 1 =>
    match groupMatch lzy (r.drop (k + 1)) with
    | some g => some g
    | none => tryTail lzy r k

/-- Match `\s*(group)` against the suffix `r`. -/
def tailMatch (lzy : Bool) (r : List Char) : Option (List Char) :=
  tryTail lzy r (r.takeWhile pyIsSpace).length

/-- Try the marker alternats in order at one position; an alternative
whose tail fails falls through to the next one. -/
def markersMatch (ci lzy : Bool) (markers : List (List Char))
    (s : List Char) : Option (List Char) :=
  match markers with
  | [] => none
  | m :: rest =>
    match dropMarker ci m s with
    | some r =>
      match tailMatch lzy r with
      | some g => some g
      | none => markersMatch ci lzy rest s
    | none => markersMatch ci lzy rest s

/-- `re.search` for the doctor patterns: scan start positions left to
right and return the group-2 capture of the first overall match. -/
def reSearch (ci lzy : Bool) (markers : List (List Char)) :
    List Char → Option (List Char)
  | [] => none
  | s@(_ :: rest) =>
    match markersMatch ci lzy markers s with
    | some g => some g
    | none => reSearch ci lzy markers rest

/-- The Arabic marker alternation `(دكتور|الدكتور|د\.|د)`, in source
order. -/
def arabicMarkers : List (List Char) :=
  ["دكتور".data, "الدكتور".data, "د.".data, "د".data]

/-- The English marker alternation `(dr\.?|doctor)`, unfolded in the
order the regex engine tries it: "dr." (greedy optional dot), "dr",
then "doctor". -/
def englishMarkers : List (List Char) :=
  ["dr.".data, "dr".data, "doctor".data]

/-- Post-processing of an Arabic capture (src/generate_data.py lines
248-249): `strip()` then `re.sub(r'[^\w\s؀-ۿ]+$', '', name)`. -/
def nameFromAr (g : List Char) : String :=
  ⟨((stripWS g).reverse.dropWhile (fun c => !keepChar c)).reverse⟩

/-- Post-processing of an English capture (src/generate_data.py lines
255-256): `strip()` then `re.sub(r'[^\w\s]+$', '', name)`. -/
def nameFromEn (g : List Char) : String :=
  ⟨((stripWS g).reverse.dropWhile (fun c => !(isWordChar c || pyIsSpace c))).reverse⟩

/-- `extract_doctor_name` (src/generate_data.py lines 228-259): after
the falsy/None guard and NFC normalization, run the two Arabic patterns
then the two English ones (the second of each pair is the same pattern
without the terminator lookahead), returning the stripped group 2 of
the first that matches, and `none` when no pattern matches.  (The
non-string branch of the guard falls away because the input type is
`String`.) -/
def extract_doctor_name (text : String) : Option String :=
  if text == "" then none
  else
    let t := nfc text.data
    match reSearch false true arabicMarkers t with
    | some g => some (nameFromAr g)
    | none =>
      match reSearch false false arabicMarkers t with
      | some g => some (nameFromAr g)
      | none =>
        match reSearch true true englishMarkers t with
        | some g => some (nameFromEn g)
        | none =>
          match reSearch true false englishMarkers t with
          | some g => some (nameFromEn g)
          | none => none

/-- The four pattern attempts of `extract_doctor_name` in their priority
order — the two Arabic patterns strictly before the two English ones —
each mapped to the name it would produce (capture stripped of
surrounding whitespace and trailing punctuation). -/
def doctorAttempts (t : List Char) : List (Option String) :=
  [(reSearch false true arabicMarkers t).map nameFromAr,
   (reSearch false false arabicMarkers t).map nameFromAr,
   (reSearch true true englishMarkers t).map nameFromEn,
   (reSearch true false englishMarkers t).map nameFromEn]



/-! ## The extraction pipeline (`process_prescriptions`) -/

/-- The doctor-label keyword list of the line scan
(src/generate_data.py line 386), in source order. -/
def doctor_keywords : List String :=
  ["دكتور", "الدكتور", "د.", "د", "dr", "doctor"]

/-- The line-skip condition of the pipeline's line scan
(src/generate_data.py lines 384-387): skip when the detected doctor
name is truthy (present and nonempty) and occurs in the line, or when
any keyword of `doctor_keywords` occurs in the line.  Both tests are
Python's plain `in` operator, hence case-sensitive. -/
def skipLine (doctor_name : Option String) (line : String) : Bool :=
  (match doctor_name with
   | some d => !(d == "") && pyIn d line
   | none => false)
  || doctor_keywords.any (fun k => pyIn k line)

/-- The skip condition as the claim states it: the same doctor-name and
Arabic-keyword tests, but with the English keywords "dr" and "doctor"
matched case-insensitively.  (Stated from the claim's words, for
comparison with `skipLine`, which is translated from the code.) -/
def skipLineClaimed (doctor_name : Option String) (line : String) : Bool :=
  (match doctor_name with
   | some d => !(d == "") && pyIn d line
   | none => false)
  || (["دكتور", "الدكتور", "د.", "د"] : List String).any (fun k => pyIn k line)
  || (["dr", "doctor"] : List String).any (fun k => pyIn k (pyLower line))

/-- The confidence-consistency post-processing step
(src/generate_data.py lines 401-407): when the drug list holds both a
score-100.0 entry and a score-below-100.0 entry, keep only the
score-100.0 entries; otherwise leave the list unchanged. -/
def validate_drugs (drugs : List Drug) : List Drug :=
  let has_confirmed := drugs.any (fun drug => decide (drug.score = 100))
  let has_detected := drugs.any (fun drug => decide (drug.score < 100))
  if has_confirmed && has_detected then
    drugs.filter (fun drug => decide (drug.score = 100))
  else drugs

/-- The empty-drug guards around the confidence-consistency step
(src/generate_data.py lines 395-413): a record whose drug list is empty
is skipped (`continue`) before the step, and skipped again if the list
validated to empty; otherwise the validated list goes into the output
row. -/
def finalizeDrugs (drugs : List Drug) : Option (List Drug) :=
  if drugs.isEmpty then none
  else
    let drugs' := validate_drugs drugs
    if drugs'.isEmpty then none else some drugs'

/-- The possible outcomes of one iteration of the per-record loop of
`process_prescriptions` (src/generate_data.py lines 342-473): the
record is skipped (`continue`: no drugs, duplicate image, copy
failure), a row is appended to `processed_data`, or a Python exception
is raised. -/
inductive StepResult (β : Type) where
  | skip
  | emit (row : β)
  | raiseExc (msg : String)

/-- Whether a step outcome is a raised exception. -/
def StepResult.isRaise {β : Type} : StepResult β → Bool
  | .raiseExc _ => true
  | _ => false

/-- The per-record loop run inside the single try block: outcomes are
accumulated in order; a raised exception aborts the loop immediately
(the remaining records are never processed and the accumulated rows are
thrown away by the handler). -/
def runBatch {α β : Type} (step : α → StepResult β) :
    List α → List β → Option (List β)
  | [], acc => some acc.reverse
  | r :: rest, acc =>
    match step r with
    | .skip => runBatch step rest acc
    | .emit row => runBatch step rest (row :: acc)
    | .raiseExc _ => none

/-- The batch-level control flow of `process_prescriptions`
(src/generate_data.py lines 294-507): the whole per-record loop runs
inside one `try` (line 297), and the matching `except Exception` (line
503) returns an empty DataFrame, so a raised exception anywhere yields
the empty output.  The per-record body is abstracted as `step`. -/
def process_prescriptions {α β : Type} (step : α → StepResult β)
    (records : List α) : List β :=
  match runBatch step records [] with
  | some rows => rows
  | none => []

/-- The per-record outcome as a function of the record's assembled drug
list (src/generate_data.py lines 395-413 and 460-469, ignoring the
image bookkeeping): emit a row exactly when `finalizeDrugs` keeps a
nonempty list, otherwise skip. -/
def drugStep (drugs : List Drug) : StepResult (List Drug) :=
  match finalizeDrugs drugs with
  | some ds => .emit ds
  | none => .skip

/-- A concrete per-record step used to exhibit the batch-level failure
behaviour: record 0 produces a row, every other record raises. -/
def demoStep : Nat → StepResult Nat :=
  fun n => if n = 0 then .emit 7 else .raiseExc "boom"

/-- The inputs on which the NA guard of `extract_drugs_from_confirmed`
raises instead of returning: already-parsed lists of two or more
elements. -/
def isnaAmbiguous : PyVal → Bool
  | .plist (_ :: _ :: _) => true
  | _ => false

/-! ## Helper lemmas -/

theorem mem_insertDesc {x y : String × ℚ} {l : List (String × ℚ)} :
    y ∈ insertDesc x l ↔ y = x ∨ y ∈ l := by
  induction l with
  | nil => simp [insertDesc]
  | cons z zs ih =>
    by_cases h : z.2 ≤ x.2
    · simp [insertDesc, h]
    · simp [insertDesc, h, ih]
      tauto

theorem mem_sortDesc {y : String × ℚ} {l : List (String × ℚ)} :
    y ∈ sortDesc l ↔ y ∈ l := by
  induction l with
  | nil => simp [sortDesc]
  | cons z zs ih => simp [sortDesc, mem_insertDesc, ih]

theorem mem_of_mem_take {α : Type} {y : α} {n : Nat} {l : List α}
    (h : y ∈ l.take n) : y ∈ l := by
  induction l generalizing n with
  | nil => simp at h
  | cons z zs ih =>
    cases n with
    | zero => simp at h
    | succ m =>
      simp only [List.take_succ_cons, List.mem_cons] at h ⊢
      rcases h with h | h
      · exact Or.inl h
      · exact Or.inr (ih h)

/-! ## Claims -/

/-- Unfolding of `validate_drugs` as a single conditional. -/
theorem validate_drugs_eq (drugs : List Drug) :
    validate_drugs drugs =
      if (drugs.any (fun drug => decide (drug.score = 100))
          && drugs.any (fun drug => decide (drug.score < 100))) then
        drugs.filter (fun drug => decide (drug.score = 100))
      else drugs := rfl

/-- Claim C2: after the confidence-consistency post-processing of
`process_prescriptions`, a drug list never contains both a score-100
entry and a score-below-100 entry, and whenever both kinds are present
before the step, exactly the score-100 subset is retained. -/
theorem claim_c2 (drugs : List Drug) :
    (¬ ((∃ d ∈ validate_drugs drugs, d.score = 100) ∧
        (∃ d ∈ validate_drugs drugs, d.score < 100)))
    ∧ ((∃ d ∈ drugs, d.score = 100) → (∃ d ∈ drugs, d.score < 100) →
        validate_drugs drugs = drugs.filter (fun drug => decide (drug.score = 100))) := by
  constructor
  · rintro ⟨⟨d1, hm1, hs1⟩, ⟨d2, hm2, hs2⟩⟩
    rw [validate_drugs_eq] at hm1 hm2
    by_cases hcond : ((drugs.any (fun drug => decide (drug.score = 100))
        && drugs.any (fun drug => decide (drug.score < 100))) = true)
    · rw [if_pos hcond] at hm2
      have h2 := (List.mem_filter.mp hm2).2
      simp only [decide_eq_true_eq] at h2
      rw [h2] at hs2
      exact absurd hs2 (lt_irrefl 100)
    · rw [if_neg hcond] at hm1 hm2
      apply hcond
      rw [Bool.and_eq_true]
      refine ⟨List.any_eq_true.mpr ⟨d1, hm1, ?_⟩, List.any_eq_true.mpr ⟨d2, hm2, ?_⟩⟩
      · simpa using hs1
      · simpa using hs2
  · intro h1 h2
    obtain ⟨d1, hm1, hs1⟩ := h1
    obtain ⟨d2, hm2, hs2⟩ := h2
    rw [validate_drugs_eq, if_pos]
    rw [Bool.and_eq_true]
    refine ⟨List.any_eq_true.mpr ⟨d1, hm1, ?_⟩, List.any_eq_true.mpr ⟨d2, hm2, ?_⟩⟩
    · simpa using hs1
    · simpa using hs2

/-- Witness for C2, at the mixed list [("a", 100), ("b", 60)]: the
post-processed list keeps exactly the score-100 subset. -/
theorem claim_c2_witness :
    validate_drugs [Drug.mk "a" 100, Drug.mk "b" 60] =
      [Drug.mk "a" 100, Drug.mk "b" 60].filter (fun drug => decide (drug.score = 100)) :=
  (claim_c2 [Drug.mk "a" 100, Drug.mk "b" 60]).2
    ⟨Drug.mk "a" 100, by simp, rfl⟩
    ⟨Drug.mk "b" 60, by simp, by norm_num⟩

/-- Counterexample for C5: the line "Doctor Ahmed" contains the keyword
"doctor" case-insensitively, so under the claim it would be skipped,
but the code's plain `in` tests are case-sensitive and the line is NOT
skipped (no lower-case "dr" or "doctor" occurs in it). -/
theorem claim_c5_counterexample :
    skipLine none "Doctor Ahmed" = false
    ∧ skipLineClaimed none "Doctor Ahmed" = true := by
  constructor <;> decide

/-- Claim C5 as amended: a line of the pipeline's line scan is skipped
exactly when the detected doctor name is present, nonempty and occurs
in the line, or when one of the keywords of `doctor_keywords` occurs in
the line — every test being a plain case-sensitive substring test, for
the English keywords as well as the Arabic ones. -/
theorem claim_c5_amended (doctor_name : Option String) (line : String) :
    skipLine doctor_name line = true ↔
      ((∃ d, doctor_name = some d ∧ d ≠ "" ∧ pyIn d line = true) ∨
       (∃ k ∈ doctor_keywords, pyIn k line = true)) := by
  cases doctor_name with
  | none =>
    simp only [skipLine, Bool.false_or, List.any_eq_true]
    constructor
    · rintro ⟨k, hk, hin⟩
      exact Or.inr ⟨k, hk, hin⟩
    · rintro (⟨d, hd, _⟩ | ⟨k, hk, hin⟩)
      · exact absurd hd (by simp)
      · exact ⟨k, hk, hin⟩
  | some d =>
    simp only [skipLine, Bool.or_eq_true, Bool.and_eq_true, List.any_eq_true,
      Bool.not_eq_true', beq_eq_false_iff_ne]
    constructor
    · rintro (⟨hne, hin⟩ | ⟨k, hk, hin⟩)
      · exact Or.inl ⟨d, rfl, hne, hin⟩
      · exact Or.inr ⟨k, hk, hin⟩
    · rintro (⟨d', hd', hne, hin⟩ | ⟨k, hk, hin⟩)
      · cases Option.some.inj hd'
        exact Or.inl ⟨hne, hin⟩
      · exact Or.inr ⟨k, hk, hin⟩

/-- Claim C10: a missing/NaN confirmed-drugs value, or one equal to a
sentinel string "", "null" or "None", makes the extractor return the
empty list immediately; the result does not depend on the JSON or
literal parsers, which are never consulted. -/
theorem claim_c10 (jsonLoads litEval jsonLoads' litEval' : String → Option PyVal)
    (v : PyVal)
    (h : v = .pnull ∨ ∃ s, v = .pstr s ∧ (s = "" ∨ s = "null" ∨ s = "None")) :
    extract_drugs_from_confirmed jsonLoads litEval v = .ok []
    ∧ extract_drugs_from_confirmed jsonLoads litEval v =
        extract_drugs_from_confirmed jsonLoads' litEval' v := by
  rcases h with h | ⟨s, rfl, hs⟩
  · subst h
    exact ⟨rfl, rfl⟩
  · have hg : isnaGuard (.pstr s) = .ok true := by
      simp only [isnaGuard, decide_eq_true_eq]
      simp [hs]
    unfold extract_drugs_from_confirmed
    rw [hg]
    exact ⟨rfl, rfl⟩

/-- Witness for C10 at the sentinel string "null", with two pairs of
parsers that disagree everywhere. -/
theorem claim_c10_witness :
    extract_drugs_from_confirmed (fun _ => none) (fun _ => none) (.pstr "null") = .ok []
    ∧ extract_drugs_from_confirmed (fun _ => none) (fun _ => none) (.pstr "null") =
        extract_drugs_from_confirmed (fun s => some (.pstr s)) (fun s => some (.pstr s))
          (.pstr "null") :=
  claim_c10 _ _ _ _ _ (Or.inr ⟨"null", rfl, Or.inr (Or.inl rfl)⟩)

/-- Every entry the confirmed-drug comprehension succeeds in building
carries score 100. -/
theorem confirmedItems_scores :
    ∀ (items : List PyVal) (ds : List ConfDrug),
      confirmedItems items = .ok ds → ∀ d ∈ ds, d.score = 100 := by
  intro items
  induction items with
  | nil =>
    intro ds h
    cases h
    intro d hd
    simp at hd
  | cons it rest ih =>
    intro ds h
    match it with
    | .pdict entries =>
      by_cases hk : dictHasKey "name" entries = true
      · simp only [confirmedItems, hk, if_true] at h
        cases hrest : confirmedItems rest with
        | ok ds' =>
          rw [hrest] at h
          cases h
          intro d hd
          rcases List.mem_cons.mp hd with h' | h'
          · rw [h']
          · exact ih ds' hrest d h'
        | error e =>
          rw [hrest] at h
          cases h
      · simp only [confirmedItems, hk, if_false] at h
        exact ih ds h
    | .pstr s =>
      by_cases hin : pyIn "name" s = true
      · simp only [confirmedItems, hin, if_true] at h
        cases h
      · simp only [confirmedItems, hin, if_false] at h
        exact ih ds h
    | .plist items' =>
      by_cases hin : (items'.any fun it =>
          match it with | .pstr s => s == "name" | _ => false) = true
      · simp only [confirmedItems, hin, if_true] at h
        cases h
      · simp only [confirmedItems, hin, if_false] at h
        exact ih ds h
    | .pnull => cases h
    | .pother => cases h

/-- Counterexample for C9: called with an already-parsed list of two
entries (a perfectly well-formed confirmed-drug list), the extractor
raises: `pd.isna` on the list gives a two-element boolean array whose
truth-value test at line 204 of src/generate_data.py raises ValueError
before the protective try block is entered. -/
theorem claim_c9_counterexample :
    extract_drugs_from_confirmed (fun _ => none) (fun _ => none)
        (.plist [.pdict [("name", .pstr "A")], .pdict [("name", .pstr "B")]]) =
      .error "ValueError: The truth value of an array with more than one element is ambiguous" :=
  rfl

/-- Claim C9 as amended: for every input except an already-parsed list
of two or more elements (on which the NA guard itself raises), the
extractor returns without raising, every candidate it returns has score
exactly 100, and when both parsers fail on a string input the result is
the empty list rather than an error. -/
theorem claim_c9_amended (jsonLoads litEval : String → Option PyVal) (v : PyVal)
    (h : isnaAmbiguous v = false) :
    (∃ ds, extract_drugs_from_confirmed jsonLoads litEval v = .ok ds ∧
        ∀ d ∈ ds, d.score = 100)
    ∧ (∀ s, v = .pstr s → jsonLoads s = none → litEval s = none →
        extract_drugs_from_confirmed jsonLoads litEval v = .ok []) := by
  have hguard : ∃ b, isnaGuard v = .ok b := by
    match v with
    | .pnull => exact ⟨true, rfl⟩
    | .pstr s => exact ⟨_, rfl⟩
    | .plist [] => exact ⟨false, rfl⟩
    | .plist [x] => exact ⟨_, rfl⟩
    | .plist (_ :: _ :: _) => simp [isnaAmbiguous] at h
    | .pdict _ => exact ⟨false, rfl⟩
    | .pother => exact ⟨false, rfl⟩
  obtain ⟨b, hb⟩ := hguard
  constructor
  · cases b with
    | true =>
      refine ⟨[], ?_, by intro d hd; simp at hd⟩
      unfold extract_drugs_from_confirmed
      rw [hb]
    | false =>
      unfold extract_drugs_from_confirmed
      rw [hb]
      cases v with
      | pstr s =>
        cases hj : jsonLoads s with
        | some d =>
          match d with
          | .plist items =>
            cases hc : confirmedItems items with
            | ok ds =>
              exact ⟨ds, by simp [hj, hc], confirmedItems_scores items ds hc⟩
            | error e =>
              exact ⟨[], by simp [hj, hc], by intro d hd; simp at hd⟩
          | .pnull => exact ⟨[], by simp [hj], by intro d hd; simp at hd⟩
          | .pstr s' => exact ⟨[], by simp [hj], by intro d hd; simp at hd⟩
          | .pdict entries => exact ⟨[], by simp [hj], by intro d hd; simp at hd⟩
          | .pother => exact ⟨[], by simp [hj], by intro d hd; simp at hd⟩
        | none =>
          cases hl : litEval s with
          | some d =>
            match d with
            | .plist items =>
              cases hc : confirmedItems items with
              | ok ds =>
                exact ⟨ds, by simp [hj, hl, hc], confirmedItems_scores items ds hc⟩
              | error e =>
                exact ⟨[], by simp [hj, hl, hc], by intro d hd; simp at hd⟩
            | .pnull => exact ⟨[], by simp [hj, hl], by intro d hd; simp at hd⟩
            | .pstr s' => exact ⟨[], by simp [hj, hl], by intro d hd; simp at hd⟩
            | .pdict entries => exact ⟨[], by simp [hj, hl], by intro d hd; simp at hd⟩
            | .pother => exact ⟨[], by simp [hj, hl], by intro d hd; simp at hd⟩
          | none => exact ⟨[], by simp [hj, hl], by intro d hd; simp at hd⟩
      | plist items =>
        cases hc : confirmedItems items with
        | ok ds =>
          exact ⟨ds, by simp [hc], confirmedItems_scores items ds hc⟩
        | error e =>
          exact ⟨[], by simp [hc], by intro d hd; simp at hd⟩
      | pnull => exact ⟨[], by simp, by intro d hd; simp at hd⟩
      | pdict entries => exact ⟨[], by simp, by intro d hd; simp at hd⟩
      | pother => exact ⟨[], by simp, by intro d hd; simp at hd⟩
  · rintro s rfl hj hl
    unfold extract_drugs_from_confirmed
    rw [hb]
    cases b with
    | true => rfl
    | false => simp [hj, hl]

/-- Witness for C9 at an already-parsed singleton list holding one
"name" entry: the extractor returns it with score 100 and no error. -/
theorem claim_c9_witness :
    ∃ ds, extract_drugs_from_confirmed (fun _ => none) (fun _ => none)
        (.plist [.pdict [("name", .pstr "Ibuprofen")]]) = .ok ds ∧
      ∀ d ∈ ds, d.score = 100 :=
  (claim_c9_amended (fun _ => none) (fun _ => none)
    (.plist [.pdict [("name", .pstr "Ibuprofen")]]) rfl).1

/-- Counterexample for C3: with the per-record step `demoStep` (record 0
emits the row 7, record 1 raises), the batch [0] alone yields [7], but
the batch [0, 1] yields the empty output: the exception raised while
processing record 1 wiped out record 0's result, so the failure of one
record is NOT isolated to that record. -/
theorem claim_c3_counterexample :
    process_prescriptions demoStep [0] = [7]
    ∧ process_prescriptions demoStep [0, 1] = []
    ∧ demoStep 1 = .raiseExc "boom" :=
  ⟨rfl, rfl, rfl⟩

/-- Claim C3 as amended: an exception raised while processing an
individual record is caught at the boundary of the WHOLE batch, not of
the record: the entire output collapses to the empty sequence,
discarding the rows of every record processed so far and never
processing the rest. -/
theorem claim_c3_amended {α β : Type} (step : α → StepResult β)
    (pre post : List α) (r : α)
    (hpre : ∀ x ∈ pre, (step x).isRaise = false)
    (hr : (step r).isRaise = true) :
    process_prescriptions step (pre ++ r :: post) = [] := by
  have key : ∀ (pre' : List α) (acc : List β), (∀ x ∈ pre', (step x).isRaise = false) →
      runBatch step (pre' ++ r :: post) acc = none := by
    intro pre'
    induction pre' with
    | nil =>
      intro acc _
      simp only [List.nil_append, runBatch]
      match hs : step r with
      | .skip => rw [hs] at hr; simp [StepResult.isRaise] at hr
      | .emit row => rw [hs] at hr; simp [StepResult.isRaise] at hr
      | .raiseExc m => rfl
    | cons x xs ih =>
      intro acc hall
      simp only [List.cons_append, runBatch]
      match hs : step x with
      | .skip => exact ih acc (fun y hy => hall y (List.mem_cons_of_mem _ hy))
      | .emit row => exact ih (row :: acc) (fun y hy => hall y (List.mem_cons_of_mem _ hy))
      | .raiseExc m => rfl
  unfold process_prescriptions
  rw [key pre [] hpre]

/-- Witness for C3 as amended, at the concrete batch [0, 1]. -/
theorem claim_c3_witness :
    process_prescriptions demoStep ([0] ++ 1 :: []) = [] :=
  claim_c3_amended demoStep [0] [] 1 (by decide) (by decide)

/-- Counterexample for C4: a record whose extraction ends with zero
drugs is NOT reported by the pipeline: the batch consisting of exactly
one zero-drug record produces the empty output, while a record with
drugs is reported. -/
theorem claim_c4_counterexample :
    drugStep [] = .skip
    ∧ process_prescriptions drugStep [[]] = []
    ∧ process_prescriptions drugStep [[Drug.mk "Aspirin" 100]] =
        [[Drug.mk "Aspirin" 100]] := by
  refine ⟨rfl, rfl, ?_⟩
  rfl

/-- Claim C4 as amended: the pipeline itself discards a record that
ends with zero drugs: such records produce the `skip` outcome
(`continue` at src/generate_data.py lines 396-399), and a skipped
record leaves the batch output exactly as if the record were absent. -/
theorem claim_c4_amended {α β : Type} (step : α → StepResult β)
    (pre post : List α) (r : α) (hskip : step r = .skip) :
    process_prescriptions step (pre ++ r :: post) =
      process_prescriptions step (pre ++ post)
    ∧ drugStep [] = .skip := by
  have key : ∀ (pre' : List α) (acc : List β),
      runBatch step (pre' ++ r :: post) acc = runBatch step (pre' ++ post) acc := by
    intro pre'
    induction pre' with
    | nil =>
      intro acc
      simp only [List.nil_append, runBatch, hskip]
    | cons x xs ih =>
      intro acc
      simp only [List.cons_append, runBatch]
      match hs : step x with
      | .skip => exact ih acc
      | .emit row => exact ih (row :: acc)
      | .raiseExc m => rfl
  constructor
  · unfold process_prescriptions
    rw [key pre []]
  · rfl

/-- Witness for C4 as amended, at a batch holding one drug-bearing
record and one zero-drug record. -/
theorem claim_c4_witness :
    process_prescriptions drugStep ([[Drug.mk "Aspirin" 100]] ++ ([] : List Drug) :: []) =
      process_prescriptions drugStep ([[Drug.mk "Aspirin" 100]] ++ [])
    ∧ drugStep [] = .skip :=
  claim_c4_amended drugStep [[Drug.mk "Aspirin" 100]] [] [] rfl

/-- When some catalog entry contains the lower-cased query, the matcher
returns the exact-substring path: the matching entries in catalog
order, truncated to `topN`, each with score 100. -/
theorem get_top_matches_exact (drug_list : List String) (scorer : String → String → ℚ)
    (query : String) (topN : Nat)
    (h : (drug_list.filter (fun drug => pyIn (pyLower query) (pyLower drug))).isEmpty = false) :
    get_top_matches drug_list scorer query topN =
      ((drug_list.filter (fun drug => pyIn (pyLower query) (pyLower drug))).take topN).map
        (fun m => Drug.mk m 100) := by
  simp only [get_top_matches, h]
  rfl

/-- Claim C1: if the lower-cased query is a substring of the entry E of
the catalog, then `get_top_matches` returns exactly the substring
matches (in catalog order, truncated to `topN`, score 100 each); in
particular E is returned with score 100 whenever it lies among the
first `topN` such entries; and the approximate scoring path is never
executed — the result does not depend on the scorer at all. -/
theorem claim_c1 (drug_list : List String) (scorer : String → String → ℚ)
    (query E : String) (topN : Nat)
    (hE : E ∈ drug_list) (hsub : pyIn (pyLower query) (pyLower E) = true) :
    get_top_matches drug_list scorer query topN =
      ((drug_list.filter (fun drug => pyIn (pyLower query) (pyLower drug))).take topN).map
        (fun m => Drug.mk m 100)
    ∧ (E ∈ (drug_list.filter (fun drug => pyIn (pyLower query) (pyLower drug))).take topN →
        Drug.mk E 100 ∈ get_top_matches drug_list scorer query topN)
    ∧ (∀ scorer' : String → String → ℚ,
        get_top_matches drug_list scorer' query topN =
          get_top_matches drug_list scorer query topN) := by
  have hmem : E ∈ drug_list.filter (fun drug => pyIn (pyLower query) (pyLower drug)) :=
    List.mem_filter.mpr ⟨hE, hsub⟩
  have hne : (drug_list.filter (fun drug => pyIn (pyLower query) (pyLower drug))).isEmpty
      = false := by
    cases hfe : drug_list.filter (fun drug => pyIn (pyLower query) (pyLower drug)) with
    | nil => rw [hfe] at hmem; simp at hmem
    | cons a l => rfl
  have heq := get_top_matches_exact drug_list scorer query topN hne
  refine ⟨heq, ?_, ?_⟩
  · intro htake
    rw [heq]
    exact List.mem_map_of_mem _ htake
  · intro scorer'
    rw [heq, get_top_matches_exact drug_list scorer' query topN hne]

/-- Witness for C1: the query "paracetamol" against the catalog
["Paracetamol 500mg"] returns that entry with score exactly 100. -/
theorem claim_c1_witness :
    Drug.mk "Paracetamol 500mg" 100 ∈
      get_top_matches ["Paracetamol 500mg"] (fun _ _ => 0) "paracetamol" 3 :=
  (claim_c1 ["Paracetamol 500mg"] (fun _ _ => 0) "paracetamol" "Paracetamol 500mg" 3
    (by decide) (by decide)).2.1 (by decide)

/-- Claim C7: when no catalog entry contains the lower-cased query and
no catalog entry reaches the token-sort similarity threshold 50, the
matcher returns the empty sequence (it is a total function, so no
error can be raised). -/
theorem claim_c7 (drug_list : List String) (scorer : String → String → ℚ)
    (query : String) (topN : Nat)
    (h1 : ∀ E ∈ drug_list, pyIn (pyLower query) (pyLower E) = false)
    (h2 : ∀ E ∈ drug_list, scorer query E < THRESHOLD) :
    get_top_matches drug_list scorer query topN = [] := by
  have hexact : drug_list.filter (fun drug => pyIn (pyLower query) (pyLower drug)) = [] := by
    rw [List.filter_eq_nil_iff]
    intro a ha
    simp [h1 a ha]
  have hfiltered : (processExtract scorer query drug_list (topN * 5)).filter
      (fun res => decide (THRESHOLD ≤ res.2)) = [] := by
    rw [List.filter_eq_nil_iff]
    intro res hres
    have hmem : res ∈ drug_list.map (fun c => (c, scorer query c)) :=
      mem_sortDesc.mp (mem_of_mem_take hres)
    obtain ⟨c, hc, hceq⟩ := List.mem_map.mp hmem
    have : res.2 = scorer query c := by rw [← hceq]
    simp only [decide_eq_true_eq, this]
    exact not_le_of_lt (h2 c hc)
  simp only [get_top_matches, hexact, processExtract] at *
  simp only [List.isEmpty_nil, if_true, hfiltered]

/-- Witness for C7: the query "zzz" against the catalog ["Aspirin"]
under a scorer that gives every pair similarity 0 returns the empty
sequence. -/
theorem claim_c7_witness :
    get_top_matches ["Aspirin"] (fun _ _ => 0) "zzz" 3 = [] :=
  claim_c7 ["Aspirin"] (fun _ _ => 0) "zzz" 3 (by decide) (by decide)

/-- Claim C8: `extract_doctor_name` equals the first defined result in
the priority-ordered list of pattern attempts — the two Arabic patterns
strictly before the two English ones, each capture stripped of
surrounding whitespace and trailing punctuation — and it returns `none`
exactly when that list has no defined entry, that is, when no pattern
matches (never an error: the function is total). -/
theorem claim_c8 (text : String) :
    extract_doctor_name text =
      ((doctorAttempts (nfc text.data)).filterMap id).head? := by
  by_cases h : text = ""
  · subst h; rfl
  · have hb : (text == "") = false := beq_eq_false_iff_ne.mpr h
    simp only [extract_doctor_name, doctorAttempts, hb, Bool.false_eq_true, if_false]
    cases reSearch false true arabicMarkers (nfc text.data) <;>
      cases reSearch false false arabicMarkers (nfc text.data) <;>
        cases reSearch true true englishMarkers (nfc text.data) <;>
          cases reSearch true false englishMarkers (nfc text.data) <;> rfl

/-- Concrete evaluation: on capital I followed by the combining dot
above (no U+0130 in the input), NFC composes the pair to U+0130, so the
first pass yields "i" plus the combining dot and the second pass strips
the dot — the same idempotence failure as on U+0130 itself, showing the
exclusion of claim C6 must be stated on the NFC form of the input. -/
theorem clean_text_composition_example :
    clean_text "I\u0307" = "i\u0307"
    ∧ clean_text (clean_text "I\u0307") = "i"
    ∧ nfc "I\u0307".data = "İ".data := by
  refine ⟨by decide, by decide, by decide⟩

/-- Concrete evaluation: the worked example of the specification for
the matcher. -/
theorem get_top_matches_example :
    get_top_matches ["Paracetamol 500mg", "Amoxicillin 250mg"] (fun _ _ => 0)
      "paracetamol" 3 = [Drug.mk "Paracetamol 500mg" 100] := by decide

/-- Concrete evaluation: the English doctor pattern on the worked
example of the specification. -/
theorem extract_doctor_name_example_english :
    extract_doctor_name "Dr. Ahmed Hassan\nParacetmol 500" = some "Ahmed Hassan" := by
  decide

/-- Concrete evaluation: the Arabic doctor pattern. -/
theorem extract_doctor_name_example_arabic :
    extract_doctor_name "دكتور أحمد" = some "أحمد" := by decide

/-- Concrete evaluation: cleaning strips punctuation, collapses
whitespace, trims and lower-cases. -/
theorem clean_text_example : clean_text "  Ab!! c  " = "ab c" := by decide

/-- Concrete evaluation: a text with no doctor marker yields no doctor
name. -/
theorem extract_doctor_name_example_none :
    extract_doctor_name "Paracetamol 500mg" = none := by decide
